import Mathlib

/-!
Shallow embedding of the arqtiva-shared-utils library
(environment validation, health aggregation, AWS client registry)
with proofs of the specification claims.

JavaScript conventions modelled explicitly:
* `process.env` is a finite map `Env`; an entry is falsy when absent or "".
* `a || b` on strings is `jsOr` (empty string counts as falsy).
* `String.prototype.includes` is `jsIncludes`.
* a `throw` is the `Except.error` branch of an `Except JsError` result.
-/

structure JsError where
  message : String
deriving Repr, DecidableEq

deriving instance DecidableEq for Except

/-- Snapshot of `process.env`: a finite association list of set variables. -/
structure Env where
  vars : List (String × String)
deriving Repr, DecidableEq

def Env.get (e : Env) (k : String) : Option String :=
  e.vars.lookup k

/-- JS truthiness of an environment value: set and non-empty. -/
def truthy (v : Option String) : Bool :=
  match v with
  | none => false
  | some s => !(s == "")

/-- JS `v || d` for an optional string `v` and default `d`. -/
def jsOr (v : Option String) (d : String) : String :=
  match v with
  | none => d
  | some s => if s == "" then d else s

/-- Does `hay` start with `needle`? -/
def charsStartWith : List Char → List Char → Bool
  | [], _ => true
  | _ :: _, [] => false
  | a :: as, b :: bs => (a == b) && charsStartWith as bs

def charsContain : List Char → List Char → Bool
  | [], needle => needle.isEmpty
  | h :: t, needle => charsStartWith needle (h :: t) || charsContain t needle

/-- JS `hay.includes(needle)`. -/
def jsIncludes (hay needle : String) : Bool :=
  charsContain hay.toList needle.toList

/-- JS `s.toUpperCase()` on ASCII text: uppercase every character.
(Structurally recursive so that concrete instances evaluate.) -/
def jsToUpper (s : String) : String :=
  ⟨s.data.map Char.toUpper⟩

/-! ## environment.js -/

/-- Result record of `validateEnvironment`; the production short-circuit
returns an object without a `serviceName` field, hence `Option String`. -/
structure ValidationResult where
  valid : Bool
  missing : List String
  warnings : List String
  serviceName : Option String := none
deriving Repr, DecidableEq

structure ValidateOptions where
  serviceName : String := "unknown-service"
  skipInProduction : Bool := true
  throwOnMissing : Bool := false
deriving Repr, DecidableEq

/-- Embedding of `validateEnvironment(requiredVars, options)`. -/
def validateEnvironment (env : Env) (requiredVars : List String)
    (opts : ValidateOptions) : Except JsError ValidationResult :=
  if opts.skipInProduction && (env.get "NODE_ENV" == some "production") then
    .ok { valid := true, missing := [], warnings := [] }
  else
    let missing := requiredVars.filter (fun varName => !(truthy (env.get varName)))
    if missing.length > 0 then
      let warningMessage :=
        opts.serviceName ++ ": Missing environment variables: " ++
          String.intercalate ", " missing
      if opts.throwOnMissing then
        .error ⟨warningMessage⟩
      else
        .ok { valid := missing.length == 0, missing := missing,
              warnings := [warningMessage], serviceName := some opts.serviceName }
    else
      .ok { valid := missing.length == 0, missing := missing,
            warnings := [], serviceName := some opts.serviceName }

def SERVICE_ENV_VARS : List (String × List String) :=
  [ ("auth-service",
      ["DYNAMODB_TABLE_NAME", "COGNITO_USER_POOL_ID", "COGNITO_USER_POOL_CLIENT_ID"]),
    ("user-management-service",
      ["DYNAMODB_TABLE_NAME", "COGNITO_USER_POOL_ID", "COGNITO_USER_POOL_CLIENT_ID"]),
    ("organizations-service",
      ["DYNAMODB_TABLE", "COGNITO_USER_POOL_ID", "COGNITO_USER_POOL_CLIENT_ID"]) ]

/-- The options object a caller passes to `validateServiceEnvironment`;
fields absent from the JS object literal are `none`. -/
structure ServiceValidateOptions where
  serviceName : Option String := none
  skipInProduction : Option Bool := none
  throwOnMissing : Option Bool := none
deriving Repr, DecidableEq

/-- Embedding of `validateServiceEnvironment(serviceName, options)`:
the catalog lookup defaults to `[]`, and the spread
`{ serviceName, ...options }` lets the caller's fields override
before `validateEnvironment`'s own defaults apply. -/
def validateServiceEnvironment (env : Env) (serviceName : String)
    (o : ServiceValidateOptions) : Except JsError ValidationResult :=
  validateEnvironment env ((SERVICE_ENV_VARS.lookup serviceName).getD [])
    { serviceName := o.serviceName.getD serviceName,
      skipInProduction := o.skipInProduction.getD true,
      throwOnMissing := o.throwOnMissing.getD false }

structure EnvironmentInfo where
  nodeEnv : String
  awsRegion : String
  isTest : Bool
  isProduction : Bool
  isDevelopment : Bool
  serviceVersion : String
  timestamp : String
deriving Repr, DecidableEq

/-- Embedding of `getEnvironmentInfo()`; the wall clock reading is the
parameter `now`. -/
def getEnvironmentInfo (env : Env) (now : String) : EnvironmentInfo :=
  { nodeEnv := jsOr (env.get "NODE_ENV") "unknown",
    awsRegion := jsOr (env.get "AWS_REGION") "us-east-1",
    isTest := env.get "NODE_ENV" == some "test",
    isProduction := env.get "NODE_ENV" == some "production",
    isDevelopment := (env.get "NODE_ENV" == some "development") ||
      (env.get "NODE_ENV" == some "dev"),
    serviceVersion := jsOr (env.get "SERVICE_VERSION") "1.0.0",
    timestamp := now }

/-- Embedding of `isTestEnvironment()`. -/
def isTestEnvironment (env : Env) : Bool :=
  (env.get "NODE_ENV" == some "test") ||
  truthy (env.get "JEST_WORKER_ID") ||
  (match env.get "npm_lifecycle_event" with
   | none => false
   | some s => jsIncludes s "test")

/-- Embedding of `getEnvVar(varName, defaultValue, required)`. -/
def getEnvVar (env : Env) (varName : String)
    (defaultValue : Option String := none) (required : Bool := false) :
    Except JsError (Option String) :=
  let value := env.get varName
  if !(truthy value) && required then
    .error ⟨"Required environment variable " ++ varName ++ " is not set"⟩
  else
    .ok (if truthy value then value else defaultValue)

def sensitiveKeys : List String :=
  [ "COGNITO_USER_POOL_CLIENT_SECRET",
    "AWS_ACCESS_KEY_ID",
    "AWS_SECRET_ACCESS_KEY",
    "DATABASE_PASSWORD",
    "API_KEY",
    "SECRET" ]

def isSensitiveKey (key : String) : Bool :=
  sensitiveKeys.any (fun sensitive => jsIncludes (jsToUpper key) sensitive)

/-- Embedding of `maskSensitiveEnvVars(env)`: the JS shallow copy followed
by per-key overwrites is, on an object (unique keys), the pointwise map. -/
def maskSensitiveEnvVars (env : List (String × String)) : List (String × String) :=
  env.map (fun kv => if isSensitiveKey kv.1 then (kv.1, "***MASKED***") else kv)

/-- The claim's denylist, as the spec words it (substring match on the key,
case-insensitive), written in environment-variable orthography. Kept only to
compare against the source's `sensitiveKeys`. -/
def claimDenylist : List String :=
  [ "CLIENT_SECRET",
    "ACCESS_KEY_ID",
    "SECRET_ACCESS_KEY",
    "DATABASE_PASSWORD",
    "API_KEY",
    "SECRET" ]

def claimSensitiveKey (key : String) : Bool :=
  claimDenylist.any (fun sensitive => jsIncludes (jsToUpper key) sensitive)

/-! ## health.js -/

/-- One per-check record inside `checks`; JS object fields that a given
branch does not set are `none`. The `status` field is `none` for records
(such as the performance metrics block) that carry no status at all. -/
structure CheckRecord where
  status : Option String := none
  initialized : Option Bool := none
  message : Option String := none
  missing : Option (List String) := none
  warnings : Option (List String) := none
  error : Option String := none
deriving Repr, DecidableEq

/-- A client value as `performHealthCheck` observes it:
falsy (`nullish`), truthy without a `getClientHealth` method (`plain`),
or truthy with a `getClientHealth` method whose call either returns a
record or throws (`withHealth`). -/
inductive ClientSpec where
  | nullish : ClientSpec
  | plain : ClientSpec
  | withHealth : Except JsError CheckRecord → ClientSpec
deriving Repr, DecidableEq

structure HealthCheckOptions where
  checkEnvironment : Bool := true
  checkClients : Bool := true
  includeMetrics : Bool := false
deriving Repr, DecidableEq

/-- JS `checks[name] = record`: replace in place when the key exists,
append otherwise. -/
def setCheck (checks : List (String × CheckRecord)) (name : String)
    (record : CheckRecord) : List (String × CheckRecord) :=
  if checks.any (fun p => p.1 == name) then
    checks.map (fun p => if p.1 == name then (name, record) else p)
  else
    checks ++ [(name, record)]

/-- The body of the per-client `for` loop of `performHealthCheck`,
threading the `checks` object and `overallStatus`. -/
def clientStep (acc : List (String × CheckRecord) × String)
    (nc : String × ClientSpec) : List (String × CheckRecord) × String :=
  match nc.2 with
  | .withHealth (.ok r) => (setCheck acc.1 nc.1 r, acc.2)
  | .withHealth (.error e) =>
      (setCheck acc.1 nc.1 { status := some "error", error := some e.message },
       "unhealthy")
  | .plain =>
      (setCheck acc.1 nc.1 { status := some "ok", initialized := some true }, acc.2)
  | .nullish =>
      (setCheck acc.1 nc.1
        { status := some "warning", initialized := some false,
          message := some "Client not initialized" },
       if acc.2 == "healthy" then "degraded" else acc.2)

structure HealthResult where
  status : String
  service : String
  envInfo : EnvironmentInfo
  checks : List (String × CheckRecord)
deriving Repr, DecidableEq

/-- `performHealthCheck` with the environment-validation call's outcome
abstracted into `envOutcome`: the `try { validateServiceEnvironment ... }`
block is a match on the call returning (`.ok`) or throwing (`.error`). -/
def performHealthCheckWith (serviceName : String)
    (envOutcome : Except JsError ValidationResult)
    (clients : List (String × ClientSpec)) (opts : HealthCheckOptions)
    (env : Env) (now : String) : HealthResult :=
  let start : List (String × CheckRecord) × String :=
    if opts.checkEnvironment then
      match envOutcome with
      | .ok v =>
          (setCheck [] "environment"
            { status := some (if v.valid then "ok" else "warning"),
              missing := some v.missing, warnings := some v.warnings },
           if v.valid then "healthy" else "degraded")
      | .error e =>
          (setCheck [] "environment"
            { status := some "error", error := some e.message },
           "unhealthy")
    else ([], "healthy")
  let afterClients :=
    if opts.checkClients then clients.foldl clientStep start else start
  let finalChecks :=
    if opts.includeMetrics then
      setCheck afterClients.1 "performance" { status := none }
    else afterClients.1
  { status := afterClients.2, service := serviceName,
    envInfo := getEnvironmentInfo env now, checks := finalChecks }

/-- Embedding of `performHealthCheck(serviceName, clients, options)`:
the environment sub-check calls `validateServiceEnvironment` with
`skipInProduction: false`. -/
def performHealthCheck (serviceName : String)
    (clients : List (String × ClientSpec)) (opts : HealthCheckOptions)
    (env : Env) (now : String) : HealthResult :=
  performHealthCheckWith serviceName
    (validateServiceEnvironment env serviceName { skipInProduction := some false })
    clients opts env now

/-- The payload handed to `createLambdaHealthResponse`; optional fields
model JS fields that may be absent. -/
structure HealthData where
  status : Option String := none
  service : Option String := none
  version : Option String := none
  timestamp : Option String := none
  error : Option String := none
  checks : List (String × CheckRecord) := []
  envInfo : Option EnvironmentInfo := none
deriving Repr, DecidableEq

def toHealthData (hr : HealthResult) : HealthData :=
  { status := some hr.status, service := some hr.service,
    timestamp := some hr.envInfo.timestamp,
    checks := hr.checks, envInfo := some hr.envInfo }

structure ResponseMeta where
  service : String
  version : String
  apiVersion : String
  timestamp : String
  environment : String
deriving Repr, DecidableEq

/-- A Lambda response; the JSON body `{ data, meta }` is kept structured. -/
structure LambdaResponse where
  statusCode : Nat
  headers : List (String × String)
  data : HealthData
  meta : ResponseMeta
deriving Repr, DecidableEq

def lambdaHealthHeaders : List (String × String) :=
  [ ("Content-Type", "application/json"),
    ("Cache-Control", "no-cache, no-store, must-revalidate"),
    ("Pragma", "no-cache"),
    ("Expires", "0"),
    ("Access-Control-Allow-Origin", "*"),
    ("Access-Control-Allow-Headers",
      "Content-Type,X-Amz-Date,Authorization,X-Api-Key,X-Amz-Security-Token"),
    ("Access-Control-Allow-Methods", "GET,OPTIONS") ]

/-- Embedding of `createLambdaHealthResponse(healthData, statusCode)`. -/
def createLambdaHealthResponse (healthData : HealthData) (statusCode : Nat)
    (env : Env) (now : String) : LambdaResponse :=
  { statusCode := statusCode,
    headers := lambdaHealthHeaders,
    data := healthData,
    meta :=
      { service := jsOr healthData.service "unknown-service",
        version := jsOr healthData.version "1.0.0",
        apiVersion := "v1",
        timestamp := now,
        environment := jsOr (env.get "NODE_ENV") "unknown" } }

/-- The call `createLambdaHealthResponse(healthData)` with the
`statusCode = 200` default argument applied. -/
def createLambdaHealthResponseDefault (healthData : HealthData)
    (env : Env) (now : String) : LambdaResponse :=
  createLambdaHealthResponse healthData 200 env now

/-- An inbound request event: its `path` and the
`queryStringParameters?.metrics` value. -/
structure RequestEvent where
  path : Option String := none
  queryMetrics : Option String := none
deriving Repr, DecidableEq

/-- `!event.path || !event.path.includes('/health')`, negated. -/
def pathMatches (path : Option String) : Bool :=
  truthy path && jsIncludes (path.getD "") "/health"

/-- The middleware returned by `healthCheckMiddleware`, with the
`try { performHealthCheck ... }` outcome abstracted into `outcome`;
the `catch` branch builds the `errorHealth` object. -/
def healthCheckMiddlewareWith (serviceName : String)
    (outcome : Except JsError HealthResult)
    (env : Env) (now : String) (event : RequestEvent) : Option LambdaResponse :=
  if !(pathMatches event.path) then
    none
  else
    match outcome with
    | .ok healthData =>
        let statusCode : Nat :=
          if healthData.status == "healthy" then 200
          else if healthData.status == "degraded" then 200
          else 503
        some (createLambdaHealthResponse (toHealthData healthData) statusCode env now)
    | .error e =>
        some (createLambdaHealthResponse
          { status := some "unhealthy", service := some serviceName,
            error := some e.message, timestamp := some now }
          503 env now)

/-- Embedding of `healthCheckMiddleware(serviceName, clients)` applied to an
event: within the embedding `performHealthCheck` is total, so its outcome
is the `.ok` case. -/
def healthCheckMiddleware (serviceName : String)
    (clients : List (String × ClientSpec))
    (env : Env) (now : String) (event : RequestEvent) : Option LambdaResponse :=
  healthCheckMiddlewareWith serviceName
    (.ok (performHealthCheck serviceName clients
      { checkEnvironment := true, checkClients := true,
        includeMetrics := event.queryMetrics == some "true" }
      env now))
    env now event

/-! ## clients/aws-clients.js -/

/-- The configuration object passed to an AWS SDK client constructor. -/
structure ClientConfig where
  region : String
  maxAttempts : Nat := 3
  requestTimeout : Nat := 30000
  keepAlive : Bool := true
  maxSockets : Nat := 50
deriving Repr, DecidableEq

/-- The options given to `DynamoDBDocumentClient.from`. -/
structure MarshallOptions where
  removeUndefinedValues : Bool := true
  convertEmptyValues : Bool := false
  convertClassInstanceToMap : Bool := false
  wrapNumbers : Bool := false
deriving Repr, DecidableEq

/-- A client handle, identified up to JS reference identity:
`base id cfg` is the id-th object this module allocated with `new ...(cfg)`,
`doc id wrapped opts` is the id-th allocated object, produced by
`DynamoDBDocumentClient.from(wrapped, opts)`, and `ext id` is an object that
existed before (e.g. a test harness mock on `global`). Two handles are the
same JS reference exactly when they are equal. -/
inductive Handle where
  | base : Nat → ClientConfig → Handle
  | doc : Nat → Handle → MarshallOptions → Handle
  | ext : Nat → Handle
deriving Repr, DecidableEq

/-- The values the test harness may have placed on `global`. -/
structure Globals where
  mockCognitoClient : Option Handle := none
  mockDynamoDbDocumentClient : Option Handle := none
deriving Repr, DecidableEq

/-- The module-level mutable state: the three memoization slots plus an
allocation counter `nextId` supplying fresh object identities. -/
structure ClientsState where
  cognitoClient : Option Handle := none
  dynamoDbClient : Option Handle := none
  dynamoDbDocumentClient : Option Handle := none
  nextId : Nat := 0
deriving Repr, DecidableEq

def awsClientConfig (env : Env) : ClientConfig :=
  { region := jsOr (env.get "AWS_REGION") "us-east-1" }

/-- Embedding of `createCognitoClient()`. -/
def createCognitoClient (env : Env) (g : Globals) (s : ClientsState) :
    Handle × ClientsState :=
  match s.cognitoClient with
  | some c => (c, s)
  | none =>
    if (env.get "NODE_ENV" == some "test") && g.mockCognitoClient.isSome then
      let c := g.mockCognitoClient.getD (.ext 0)
      (c, { s with cognitoClient := some c })
    else
      let c := Handle.base s.nextId (awsClientConfig env)
      (c, { s with cognitoClient := some c, nextId := s.nextId + 1 })

/-- Embedding of `createDynamoDbDocumentClient()`. -/
def createDynamoDbDocumentClient (env : Env) (g : Globals) (s : ClientsState) :
    Handle × ClientsState :=
  match s.dynamoDbDocumentClient with
  | some c => (c, s)
  | none =>
    if (env.get "NODE_ENV" == some "test") && g.mockDynamoDbDocumentClient.isSome then
      let c := g.mockDynamoDbDocumentClient.getD (.ext 0)
      (c, { s with dynamoDbDocumentClient := some c })
    else
      let (baseClient, s1) :=
        match s.dynamoDbClient with
        | some b => (b, s)
        | none =>
          let b := Handle.base s.nextId (awsClientConfig env)
          (b, { s with dynamoDbClient := some b, nextId := s.nextId + 1 })
      let d := Handle.doc s1.nextId baseClient {}
      (d, { s1 with dynamoDbDocumentClient := some d, nextId := s1.nextId + 1 })

/-- Embedding of `getCognitoClient()`. -/
def getCognitoClient (env : Env) (g : Globals) (s : ClientsState) :
    Handle × ClientsState :=
  createCognitoClient env g s

/-- Embedding of `getDynamoDbClient()`. -/
def getDynamoDbClient (env : Env) (g : Globals) (s : ClientsState) :
    Handle × ClientsState :=
  createDynamoDbDocumentClient env g s

/-- Embedding of `resetClients()`: the slots are cleared; the allocation
counter is not a program variable and is preserved. -/
def resetClients (s : ClientsState) : ClientsState :=
  { s with cognitoClient := none, dynamoDbClient := none,
           dynamoDbDocumentClient := none }

/-- A handle that can have been obtained (from this registry or the
harness globals) before the state reached `s`: any allocated handle then in
existence has an id below `s.nextId`; external objects are unconstrained. -/
def Handle.existsBefore (s : ClientsState) : Handle → Prop
  | .base i _ => i < s.nextId
  | .doc i _ _ => i < s.nextId
  | .ext _ => True

/-! ## Auxiliary definitions for the verification -/

/-- Severity rank of an overall status: healthy < degraded < unhealthy. -/
def sev (s : String) : Nat :=
  if s == "unhealthy" then 2 else if s == "degraded" then 1 else 0

/-- No client in the mapping has a `getClientHealth` method that throws. -/
def clientsNoThrow (clients : List (String × ClientSpec)) : Prop :=
  ∀ p ∈ clients, ∀ e : JsError, p.2 ≠ ClientSpec.withHealth (.error e)

/-! ## Helper lemmas -/

theorem length_beq_zero_eq_isEmpty (l : List String) : (l.length == 0) = l.isEmpty := by
  cases l <;> rfl

theorem jsOr_none (d : String) : jsOr none d = d := rfl

theorem jsOr_some_empty (d : String) : jsOr (some "") d = d := rfl

theorem jsOr_some_of_ne (s d : String) (h : s ≠ "") : jsOr (some s) d = s := by
  simp [jsOr, h]

theorem shortCircuitCond_false {opts : ValidateOptions} {env : Env}
    (hns : ¬(opts.skipInProduction = true ∧ env.get "NODE_ENV" = some "production")) :
    (opts.skipInProduction && (env.get "NODE_ENV" == some "production")) = false := by
  cases hsk : opts.skipInProduction
  · rfl
  · cases hnv : (env.get "NODE_ENV" == some "production")
    · rfl
    · exact absurd ⟨hsk, by exact eq_of_beq hnv⟩ hns

theorem validateEnvironment_missing {env : Env} {keys : List String}
    {opts : ValidateOptions} {r : ValidationResult}
    (hok : validateEnvironment env keys opts = .ok r)
    (hns : ¬(opts.skipInProduction = true ∧ env.get "NODE_ENV" = some "production")) :
    r.missing = keys.filter (fun varName => !(truthy (env.get varName))) := by
  unfold validateEnvironment at hok
  rw [shortCircuitCond_false hns] at hok
  simp only [Bool.false_eq_true, if_false] at hok
  split at hok
  · split at hok
    · exact absurd hok (by simp)
    · simp only [Except.ok.injEq] at hok
      rw [← hok]
  · simp only [Except.ok.injEq] at hok
    rw [← hok]

theorem validateEnvironment_ok_shape {env : Env} {keys : List String}
    {opts : ValidateOptions} {r : ValidationResult}
    (hok : validateEnvironment env keys opts = .ok r)
    (hns : ¬(opts.skipInProduction = true ∧ env.get "NODE_ENV" = some "production")) :
    r.valid = r.missing.isEmpty ∧ r.serviceName = some opts.serviceName := by
  unfold validateEnvironment at hok
  rw [shortCircuitCond_false hns] at hok
  simp only [Bool.false_eq_true, if_false] at hok
  split at hok
  · split at hok
    · exact absurd hok (by simp)
    · simp only [Except.ok.injEq] at hok
      rw [← hok]
      exact ⟨length_beq_zero_eq_isEmpty _, rfl⟩
  · simp only [Except.ok.injEq] at hok
    rw [← hok]
    exact ⟨length_beq_zero_eq_isEmpty _, rfl⟩

/-- Claim C3: a non-throwing `validate` call returns the full result record: under
the production short-circuit it is `{ valid: true, missing: [], warnings: [] }`
(no `serviceName` field); in every other case `valid` iff `missing` is empty
and the record carries `serviceName`. -/
theorem c3_validate_result_record (env : Env) (keys : List String)
    (opts : ValidateOptions) (r : ValidationResult)
    (hok : validateEnvironment env keys opts = .ok r) :
    ((opts.skipInProduction = true ∧ env.get "NODE_ENV" = some "production") →
      r = { valid := true, missing := [], warnings := [], serviceName := none }) ∧
    (¬(opts.skipInProduction = true ∧ env.get "NODE_ENV" = some "production") →
      r.valid = r.missing.isEmpty ∧ r.serviceName = some opts.serviceName) := by
  constructor
  · intro hsc
    unfold validateEnvironment at hok
    rw [hsc.1, hsc.2] at hok
    simp only [beq_self_eq_true, Bool.and_self, if_true, Except.ok.injEq] at hok
    rw [← hok]
  · intro hns
    exact validateEnvironment_ok_shape hok hns

/-- Witness for C3 at a concrete input: an empty environment with one
required key, default options. -/
theorem c3_validate_result_record_witness :
    ((({} : ValidateOptions).skipInProduction = true ∧
        Env.get ⟨[]⟩ "NODE_ENV" = some "production") →
      ({ valid := false, missing := ["A"],
         warnings := ["unknown-service: Missing environment variables: A"],
         serviceName := some "unknown-service" } : ValidationResult) =
        { valid := true, missing := [], warnings := [], serviceName := none }) ∧
    (¬(({} : ValidateOptions).skipInProduction = true ∧
        Env.get ⟨[]⟩ "NODE_ENV" = some "production") →
      ({ valid := false, missing := ["A"],
         warnings := ["unknown-service: Missing environment variables: A"],
         serviceName := some "unknown-service" } : ValidationResult).valid =
        ({ valid := false, missing := ["A"],
           warnings := ["unknown-service: Missing environment variables: A"],
           serviceName := some "unknown-service" } : ValidationResult).missing.isEmpty ∧
      ({ valid := false, missing := ["A"],
         warnings := ["unknown-service: Missing environment variables: A"],
         serviceName := some "unknown-service" } : ValidationResult).serviceName =
        some ({} : ValidateOptions).serviceName) :=
  c3_validate_result_record ⟨[]⟩ ["A"] {}
    { valid := false, missing := ["A"],
      warnings := ["unknown-service: Missing environment variables: A"],
      serviceName := some "unknown-service" } (by rfl)

theorem count_filter_eq (l : List String) (p : String → Bool) (a : String) :
    (l.filter p).count a = if p a then l.count a else 0 := by
  by_cases h : p a = true
  · rw [List.count_filter h, if_pos h]
  · rw [if_neg h, List.count_eq_zero]
    intro hmem
    exact h (List.mem_filter.mp hmem).2

/-- Counterexample to C4: with `requiredKeys = ["A", "A"]` and an empty
environment, `missing` is `["A", "A"]` — duplicates are not collapsed. -/
theorem c4_counterexample_duplicates_kept :
    validateEnvironment ⟨[]⟩ ["A", "A"] {} =
      .ok { valid := false, missing := ["A", "A"],
            warnings := ["unknown-service: Missing environment variables: A, A"],
            serviceName := some "unknown-service" } ∧
    ¬ (["A", "A"] : List String).Nodup := by
  exact ⟨by rfl, by decide⟩

/-- Claim C4, amended: outside the production short-circuit, `missing` is exactly
`requiredKeys` filtered to the keys whose variable is absent or empty: an
order-preserving sublist in which each key occurs as often as it occurs in
`requiredKeys` (so duplicates in the input are kept, not collapsed). -/
theorem c4_missing_filter (env : Env) (keys : List String)
    (opts : ValidateOptions) (r : ValidationResult)
    (hok : validateEnvironment env keys opts = .ok r)
    (hns : ¬(opts.skipInProduction = true ∧ env.get "NODE_ENV" = some "production")) :
    r.missing.Sublist keys ∧
    (∀ k, r.missing.count k =
      if truthy (env.get k) then 0 else keys.count k) := by
  have hm := validateEnvironment_missing hok hns
  constructor
  · rw [hm]; exact List.filter_sublist keys
  · intro k
    rw [hm, count_filter_eq]
    by_cases h : truthy (env.get k)
    · simp [h]
    · simp [h]

/-- Witness for C4 at a concrete input. -/
theorem c4_missing_filter_witness :
    (["B"] : List String).Sublist ["A", "B"] ∧
    (∀ k, (["B"] : List String).count k =
      if truthy (Env.get ⟨[("A", "1")]⟩ k) then 0 else (["A", "B"] : List String).count k) :=
  c4_missing_filter ⟨[("A", "1")]⟩ ["A", "B"] {}
    { valid := false, missing := ["B"],
      warnings := ["unknown-service: Missing environment variables: B"],
      serviceName := some "unknown-service" }
    (by rfl) (by simp [Env.get, List.lookup])

theorem lookup_mask_map (envm : List (String × String)) (k : String) :
    (envm.map (fun kv => if isSensitiveKey kv.1 then (kv.1, "***MASKED***") else kv)).lookup k
      = (envm.lookup k).map (fun v => if isSensitiveKey k then "***MASKED***" else v) := by
  induction envm with
  | nil => rfl
  | cons p t ih =>
    rcases p with ⟨pk, pv⟩
    simp only [List.map_cons]
    by_cases hpk : isSensitiveKey pk = true
    · rw [if_pos hpk]
      by_cases hk : (k == pk) = true
      · have hkk : k = pk := eq_of_beq hk
        subst hkk
        simp [List.lookup, hpk]
      · simp [List.lookup, hk, ih]
    · rw [if_neg hpk]
      by_cases hk : (k == pk) = true
      · have hkk : k = pk := eq_of_beq hk
        subst hkk
        simp [List.lookup, hpk]
      · simp [List.lookup, hk, ih]

theorem mask_map_keys (envm : List (String × String)) :
    (envm.map (fun kv => if isSensitiveKey kv.1 then (kv.1, "***MASKED***") else kv)).map
        Prod.fst = envm.map Prod.fst := by
  induction envm with
  | nil => rfl
  | cons p t ih =>
    by_cases hpk : isSensitiveKey p.1 = true <;> simp [hpk, ih]

/-- Counterexample to C8: the key `MY_ACCESS_KEY_ID` contains the claim's
denylist substring `ACCESS_KEY_ID` (case-insensitively), so the claim
requires it to be masked; the code compares against `AWS_ACCESS_KEY_ID`
and leaves it untouched. -/
theorem c8_counterexample_access_key_id :
    claimSensitiveKey "MY_ACCESS_KEY_ID" = true ∧
    isSensitiveKey "MY_ACCESS_KEY_ID" = false ∧
    maskSensitiveEnvVars [("MY_ACCESS_KEY_ID", "x")] = [("MY_ACCESS_KEY_ID", "x")] := by
  refine ⟨by decide, by decide, by decide⟩

/-- Claim C8, amended: `maskSecrets` returns a mapping with the same keys in the
same order in which exactly the entries whose key contains, case-
insensitively, one of the source denylist substrings
COGNITO_USER_POOL_CLIENT_SECRET, AWS_ACCESS_KEY_ID, AWS_SECRET_ACCESS_KEY,
DATABASE_PASSWORD, API_KEY, SECRET are replaced by "***MASKED***" and all
other entries are unchanged; the input mapping itself is not consumed
(the result is a fresh copy). Includes the spec's concrete example. -/
theorem c8_mask_characterization (envm : List (String × String)) :
    (∀ k, (maskSensitiveEnvVars envm).lookup k =
      (envm.lookup k).map (fun v => if isSensitiveKey k then "***MASKED***" else v)) ∧
    (maskSensitiveEnvVars envm).map Prod.fst = envm.map Prod.fst ∧
    maskSensitiveEnvVars [("API_KEY", "x"), ("NORMAL", "y")] =
      [("API_KEY", "***MASKED***"), ("NORMAL", "y")] := by
  refine ⟨fun k => lookup_mask_map envm k, mask_map_keys envm, by decide⟩

/-- Counterexample to C9: variable unset, a default is supplied, and
`required = true` — the code throws instead of returning the default. -/
theorem c9_counterexample_required_beats_default :
    getEnvVar ⟨[]⟩ "X" (some "foo") true =
      .error ⟨"Required environment variable X is not set"⟩ := by
  rfl

/-- Claim C9, amended: `getVar` returns the variable's value when it is set and
non-empty; otherwise it fails with the ConfigurationError whenever
`required` is true — regardless of any supplied default — and returns
`defaultValue` only when not required. -/
theorem c9_getEnvVar_characterization (env : Env) (name : String)
    (d : Option String) (req : Bool) :
    getEnvVar env name d req =
      (if truthy (env.get name) then .ok (env.get name)
       else if req then
         .error ⟨"Required environment variable " ++ name ++ " is not set"⟩
       else .ok d) := by
  unfold getEnvVar
  cases h : truthy (env.get name) <;> cases req <;> simp [h]

/-- Claim C10: the transport-envelope builder fills missing metadata with fixed
defaults (`meta.service` falls back to "unknown-service", `meta.version`
to "1.0.0", `meta.apiVersion` is always "v1"), the statusCode defaults to
200 when not supplied, and the headers are the fixed content-type,
no-cache and GET/OPTIONS CORS set, independent of the payload. -/
theorem c10_envelope_defaults (healthData : HealthData) (statusCode : Nat)
    (env : Env) (now : String) :
    (createLambdaHealthResponse healthData statusCode env now).statusCode = statusCode ∧
    (createLambdaHealthResponse healthData statusCode env now).headers =
      lambdaHealthHeaders ∧
    (createLambdaHealthResponse healthData statusCode env now).meta.apiVersion = "v1" ∧
    (∀ s, healthData.service = some s → s ≠ "" →
      (createLambdaHealthResponse healthData statusCode env now).meta.service = s) ∧
    ((healthData.service = none ∨ healthData.service = some "") →
      (createLambdaHealthResponse healthData statusCode env now).meta.service =
        "unknown-service") ∧
    (∀ s, healthData.version = some s → s ≠ "" →
      (createLambdaHealthResponse healthData statusCode env now).meta.version = s) ∧
    ((healthData.version = none ∨ healthData.version = some "") →
      (createLambdaHealthResponse healthData statusCode env now).meta.version =
        "1.0.0") ∧
    createLambdaHealthResponseDefault healthData env now =
      createLambdaHealthResponse healthData 200 env now := by
  refine ⟨rfl, rfl, rfl, ?_, ?_, ?_, ?_, rfl⟩
  · intro s hs hne
    simp [createLambdaHealthResponse, hs, jsOr_some_of_ne s _ hne]
  · intro h
    rcases h with h | h <;> simp [createLambdaHealthResponse, h, jsOr]
  · intro s hs hne
    simp [createLambdaHealthResponse, hs, jsOr_some_of_ne s _ hne]
  · intro h
    rcases h with h | h <;> simp [createLambdaHealthResponse, h, jsOr]

/-- Witness for C10 at a concrete payload: a present non-empty service name
is kept, an empty version falls back to "1.0.0". -/
theorem c10_envelope_defaults_witness :
    (createLambdaHealthResponse
        { service := some "auth", version := some "" } 418 ⟨[]⟩ "t").meta.service =
      "auth" ∧
    (createLambdaHealthResponse
        { service := some "auth", version := some "" } 418 ⟨[]⟩ "t").meta.version =
      "1.0.0" :=
  ⟨(c10_envelope_defaults { service := some "auth", version := some "" } 418 ⟨[]⟩
      "t").2.2.2.1 "auth" rfl (by decide),
   (c10_envelope_defaults { service := some "auth", version := some "" } 418 ⟨[]⟩
      "t").2.2.2.2.2.2.1 (Or.inr rfl)⟩

theorem sev_le_two (s : String) : sev s ≤ 2 := by
  by_cases h1 : (s == "unhealthy") = true <;> by_cases h2 : (s == "degraded") = true <;>
    simp [sev, h1, h2]

theorem clientStep_sev_mono (acc : List (String × CheckRecord) × String)
    (nc : String × ClientSpec) : sev acc.2 ≤ sev (clientStep acc nc).2 := by
  rcases nc with ⟨n, c⟩
  cases c with
  | nullish =>
    simp only [clientStep]
    by_cases h : (acc.2 == "healthy") = true
    · rw [eq_of_beq h]
      simp [h, sev]
    · simp [h]
  | plain => simp [clientStep]
  | withHealth r =>
    cases r with
    | ok rec => simp [clientStep]
    | error e => simpa [clientStep, sev] using sev_le_two acc.2

theorem foldl_clientStep_sev_mono (l : List (String × ClientSpec))
    (acc : List (String × CheckRecord) × String) :
    sev acc.2 ≤ sev (l.foldl clientStep acc).2 := by
  induction l generalizing acc with
  | nil => simp
  | cons p t ih => exact le_trans (clientStep_sev_mono acc p) (ih _)

theorem clientStep_unhealthy (acc : List (String × CheckRecord) × String)
    (nc : String × ClientSpec) (h : acc.2 = "unhealthy") :
    (clientStep acc nc).2 = "unhealthy" := by
  rcases nc with ⟨n, c⟩
  cases c with
  | nullish => simp [clientStep, h]
  | plain => simp [clientStep, h]
  | withHealth r => cases r <;> simp [clientStep, h]

theorem foldl_clientStep_unhealthy (l : List (String × ClientSpec))
    (acc : List (String × CheckRecord) × String) (h : acc.2 = "unhealthy") :
    (l.foldl clientStep acc).2 = "unhealthy" := by
  induction l generalizing acc with
  | nil => exact h
  | cons p t ih => exact ih _ (clientStep_unhealthy acc p h)

theorem foldl_clientStep_error_mem (l : List (String × ClientSpec))
    (n : String) (e : JsError) :
    ∀ acc : List (String × CheckRecord) × String,
      (n, ClientSpec.withHealth (.error e)) ∈ l →
      (l.foldl clientStep acc).2 = "unhealthy" := by
  induction l with
  | nil => intro acc hmem; cases hmem
  | cons p t ih =>
    intro acc hmem
    rcases List.mem_cons.mp hmem with h | h
    · rw [List.foldl_cons]
      apply foldl_clientStep_unhealthy
      rw [← h]
      simp [clientStep]
    · exact ih _ h

theorem clientStep_nonUnhealthy (acc : List (String × CheckRecord) × String)
    (nc : String × ClientSpec)
    (hne : ∀ e : JsError, nc.2 ≠ ClientSpec.withHealth (.error e))
    (h : acc.2 = "healthy" ∨ acc.2 = "degraded") :
    (clientStep acc nc).2 = "healthy" ∨ (clientStep acc nc).2 = "degraded" := by
  rcases nc with ⟨n, c⟩
  cases c with
  | nullish =>
    simp only [clientStep]
    by_cases hb : (acc.2 == "healthy") = true
    · simp [hb]
    · simp [hb]
      exact h
  | plain => simpa [clientStep] using h
  | withHealth r =>
    cases r with
    | ok rec => simpa [clientStep] using h
    | error e => exact absurd rfl (hne e)

theorem clientStep_degraded (acc : List (String × CheckRecord) × String)
    (nc : String × ClientSpec)
    (hne : ∀ e : JsError, nc.2 ≠ ClientSpec.withHealth (.error e))
    (h : acc.2 = "degraded") : (clientStep acc nc).2 = "degraded" := by
  rcases nc with ⟨n, c⟩
  cases c with
  | nullish => simp [clientStep, h]
  | plain => simp [clientStep, h]
  | withHealth r =>
    cases r with
    | ok rec => simp [clientStep, h]
    | error e => exact absurd rfl (hne e)

theorem foldl_clientStep_nonUnhealthy (l : List (String × ClientSpec)) :
    ∀ acc : List (String × CheckRecord) × String, clientsNoThrow l →
      acc.2 = "healthy" ∨ acc.2 = "degraded" →
      (l.foldl clientStep acc).2 = "healthy" ∨ (l.foldl clientStep acc).2 = "degraded" := by
  induction l with
  | nil => intro acc _ h; exact h
  | cons p t ih =>
    intro acc hnt h
    rw [List.foldl_cons]
    exact ih _ (fun q hq => hnt q (List.mem_cons_of_mem p hq))
      (clientStep_nonUnhealthy acc p (hnt p (List.mem_cons_self p t)) h)

theorem foldl_clientStep_degraded (l : List (String × ClientSpec)) :
    ∀ acc : List (String × CheckRecord) × String, clientsNoThrow l →
      acc.2 = "degraded" → (l.foldl clientStep acc).2 = "degraded" := by
  induction l with
  | nil => intro acc _ h; exact h
  | cons p t ih =>
    intro acc hnt h
    rw [List.foldl_cons]
    exact ih _ (fun q hq => hnt q (List.mem_cons_of_mem p hq))
      (clientStep_degraded acc p (hnt p (List.mem_cons_self p t)) h)

theorem foldl_clientStep_warn (l : List (String × ClientSpec)) :
    ∀ acc : List (String × CheckRecord) × String, clientsNoThrow l →
      acc.2 = "healthy" → (∃ p ∈ l, p.2 = ClientSpec.nullish) →
      (l.foldl clientStep acc).2 = "degraded" := by
  induction l with
  | nil => intro acc _ _ hex; rcases hex with ⟨p, hp, _⟩; cases hp
  | cons q t ih =>
    intro acc hnt hstart hex
    rw [List.foldl_cons]
    by_cases hq : q.2 = ClientSpec.nullish
    · apply foldl_clientStep_degraded t _ (fun r hr => hnt r (List.mem_cons_of_mem q hr))
      rcases q with ⟨n, c⟩
      simp only at hq
      subst hq
      simp [clientStep, hstart]
    · rcases hex with ⟨p, hp, hpn⟩
      rcases List.mem_cons.mp hp with hh | hh
      · exact absurd (hh ▸ hpn) hq
      · apply ih _ (fun r hr => hnt r (List.mem_cons_of_mem q hr)) _ ⟨p, hh, hpn⟩
        rcases q with ⟨n, c⟩
        cases c with
        | nullish => exact absurd rfl hq
        | plain => simpa [clientStep] using hstart
        | withHealth r =>
          cases r with
          | ok rec => simpa [clientStep] using hstart
          | error e => exact absurd rfl (hnt (n, _) (List.mem_cons_self _ t) e)

/-- Counterexample to C1: a client whose own `getClientHealth` returns a
record with status "error" produces an `error` sub-check, yet the overall
status stays "healthy" — deferred client-health records never influence the
overall status. -/
theorem c1_counterexample_deferred_error_ignored :
    (performHealthCheck "svc"
        [("c", ClientSpec.withHealth (.ok { status := some "error" }))]
        {} ⟨[]⟩ "t0").status = "healthy" ∧
    (performHealthCheck "svc"
        [("c", ClientSpec.withHealth (.ok { status := some "error" }))]
        {} ⟨[]⟩ "t0").checks.lookup "c" = some { status := some "error" } := by
  exact ⟨by rfl, by rfl⟩

/-- Claim C1, amended: the overall status is only ever downgraded along
healthy < degraded < unhealthy during a call (the per-client loop is
monotone in severity). For the sub-checks the aggregator produces itself:
if the environment validation returns (does not throw), no client health
call throws, and either the environment result is invalid or some client is
uninitialized — i.e. every aggregator-produced sub-check is ok or warning
with at least one warning — the overall status is exactly "degraded", never
"unhealthy"; if the environment validation throws or some client health
call throws (the aggregator's `error` sub-checks), the overall status is
"unhealthy". Records returned by a client's own `getClientHealth` are
recorded but never affect the overall status. -/
theorem c1_severity_lattice (serviceName : String)
    (envOutcome : Except JsError ValidationResult)
    (clients : List (String × ClientSpec)) (opts : HealthCheckOptions)
    (env : Env) (now : String) :
    (∀ start : List (String × CheckRecord) × String,
      sev start.2 ≤ sev (clients.foldl clientStep start).2) ∧
    (performHealthCheck serviceName clients opts env now =
      performHealthCheckWith serviceName
        (validateServiceEnvironment env serviceName { skipInProduction := some false })
        clients opts env now) ∧
    (∀ v : ValidationResult, envOutcome = .ok v → clientsNoThrow clients →
      opts.checkEnvironment = true → opts.checkClients = true →
      (v.valid = false ∨ ∃ p ∈ clients, p.2 = ClientSpec.nullish) →
      (performHealthCheckWith serviceName envOutcome clients opts env now).status =
        "degraded") ∧
    (((∃ e : JsError, envOutcome = .error e) ∧ opts.checkEnvironment = true) ∨
        (opts.checkClients = true ∧
          ∃ p ∈ clients, ∃ e : JsError, p.2 = ClientSpec.withHealth (.error e)) →
      (performHealthCheckWith serviceName envOutcome clients opts env now).status =
        "unhealthy") := by
  refine ⟨fun start => foldl_clientStep_sev_mono clients start, rfl, ?_, ?_⟩
  · intro v hv hnt hce hcc hwarn
    subst hv
    simp only [performHealthCheckWith, hce, hcc, if_true]
    rcases hwarn with hinv | hnull
    · rw [hinv]
      exact foldl_clientStep_degraded clients _ hnt (by simp)
    · by_cases hval : v.valid
      · rw [hval]
        exact foldl_clientStep_warn clients _ hnt (by simp) hnull
      · rw [Bool.not_eq_true] at hval
        rw [hval]
        exact foldl_clientStep_degraded clients _ hnt (by simp)
  · intro hd
    rcases hd with ⟨⟨e, he⟩, hce⟩ | ⟨hcc, p, hp, e, hpe⟩
    · subst he
      simp only [performHealthCheckWith, hce, if_true]
      by_cases hcc : opts.checkClients = true
      · simp only [hcc, if_true]
        exact foldl_clientStep_unhealthy clients _ rfl
      · rw [Bool.not_eq_true] at hcc
        simp [hcc]
    · simp only [performHealthCheckWith, hcc, if_true]
      rcases p with ⟨n, c⟩
      simp only at hpe
      subst hpe
      split <;> exact foldl_clientStep_error_mem clients n e _ hp

/-- Witness for C1 at a concrete input: an invalid environment result and a
single plain client give overall status "degraded". -/
theorem c1_severity_lattice_witness :
    (performHealthCheckWith "svc"
        (.ok { valid := false, missing := ["A"], warnings := [],
               serviceName := some "svc" })
        [("c", ClientSpec.plain)] {} ⟨[]⟩ "t").status = "degraded" :=
  (c1_severity_lattice "svc"
      (.ok { valid := false, missing := ["A"], warnings := [],
             serviceName := some "svc" })
      [("c", ClientSpec.plain)] {} ⟨[]⟩ "t").2.2.1
    { valid := false, missing := ["A"], warnings := [], serviceName := some "svc" }
    rfl
    (by
      intro p hp e
      rw [List.mem_singleton] at hp
      subst hp
      exact fun h => ClientSpec.noConfusion h)
    rfl rfl (Or.inl rfl)

/-- Claim C2: the middleware returns `null` unless the path is truthy and contains
"/health"; on a match it returns the envelope with status 200 for a
healthy/degraded result and 503 for an unhealthy one; an exception thrown
during the check is caught and converted into a 503 envelope whose
`data.status` is "unhealthy" (in particular a throwing client handle yields
such an envelope); being a total function, the middleware never raises. -/
theorem c2_middleware_envelope (serviceName : String)
    (clients : List (String × ClientSpec)) (env : Env) (now : String)
    (event : RequestEvent) :
    (pathMatches event.path = false →
      healthCheckMiddleware serviceName clients env now event = none) ∧
    (pathMatches event.path = true →
      ∃ r, healthCheckMiddleware serviceName clients env now event = some r ∧
        (((performHealthCheck serviceName clients
              { checkEnvironment := true, checkClients := true,
                includeMetrics := event.queryMetrics == some "true" }
              env now).status = "healthy" ∨
          (performHealthCheck serviceName clients
              { checkEnvironment := true, checkClients := true,
                includeMetrics := event.queryMetrics == some "true" }
              env now).status = "degraded") → r.statusCode = 200) ∧
        ((performHealthCheck serviceName clients
              { checkEnvironment := true, checkClients := true,
                includeMetrics := event.queryMetrics == some "true" }
              env now).status = "unhealthy" → r.statusCode = 503)) ∧
    (∀ e : JsError, pathMatches event.path = true →
      ∃ r, healthCheckMiddlewareWith serviceName (.error e) env now event = some r ∧
        r.statusCode = 503 ∧ r.data.status = some "unhealthy") ∧
    (∀ (name : String) (e : JsError), pathMatches event.path = true →
      (name, ClientSpec.withHealth (.error e)) ∈ clients →
      ∃ r, healthCheckMiddleware serviceName clients env now event = some r ∧
        r.statusCode = 503 ∧ r.data.status = some "unhealthy") := by
  refine ⟨?_, ?_, ?_, ?_⟩
  · intro h
    simp [healthCheckMiddleware, healthCheckMiddlewareWith, h]
  · intro h
    simp only [healthCheckMiddleware, healthCheckMiddlewareWith, h, Bool.not_true,
      Bool.false_eq_true, if_false]
    refine ⟨_, rfl, ?_, ?_⟩
    · intro hs
      rcases hs with hs | hs <;> simp [createLambdaHealthResponse, hs]
    · intro hs
      simp [createLambdaHealthResponse, hs]
  · intro e h
    refine ⟨createLambdaHealthResponse
        { status := some "unhealthy", service := some serviceName,
          error := some e.message, timestamp := some now } 503 env now,
      ?_, rfl, rfl⟩
    simp only [healthCheckMiddlewareWith, h, Bool.not_true, Bool.false_eq_true,
      if_false]
  · intro name e h hmem
    have hstat : (performHealthCheck serviceName clients
        { checkEnvironment := true, checkClients := true,
          includeMetrics := event.queryMetrics == some "true" }
        env now).status = "unhealthy" :=
      foldl_clientStep_error_mem clients name e _ hmem
    simp only [healthCheckMiddleware, healthCheckMiddlewareWith, h, Bool.not_true,
      Bool.false_eq_true, if_false]
    refine ⟨_, rfl, ?_, ?_⟩
    · simp [createLambdaHealthResponse, hstat]
    · show (toHealthData _).status = some "unhealthy"
      rw [toHealthData, hstat]

/-- Witness for C2 at a concrete input: a matching path and a throwing
client handle give a 503 envelope with data.status = "unhealthy". -/
theorem c2_middleware_envelope_witness :
    ∃ r, healthCheckMiddleware "svc" [("c", ClientSpec.withHealth (.error ⟨"boom"⟩))]
        ⟨[]⟩ "t" { path := some "/api/health" } = some r ∧
      r.statusCode = 503 ∧ r.data.status = some "unhealthy" :=
  (c2_middleware_envelope "svc" [("c", ClientSpec.withHealth (.error ⟨"boom"⟩))]
      ⟨[]⟩ "t" { path := some "/api/health" }).2.2.2 "c" ⟨"boom"⟩ (by decide)
    (List.mem_singleton.mpr rfl)

theorem clientStep_status_mem (acc : List (String × CheckRecord) × String)
    (nc : String × ClientSpec)
    (h : acc.2 = "healthy" ∨ acc.2 = "degraded" ∨ acc.2 = "unhealthy") :
    (clientStep acc nc).2 = "healthy" ∨ (clientStep acc nc).2 = "degraded" ∨
      (clientStep acc nc).2 = "unhealthy" := by
  rcases nc with ⟨n, c⟩
  cases c with
  | nullish =>
    simp only [clientStep]
    by_cases hb : (acc.2 == "healthy") = true
    · simp [hb]
    · simp [hb]
      exact h
  | plain => simpa [clientStep] using h
  | withHealth r =>
    cases r with
    | ok rec => simpa [clientStep] using h
    | error e => simp [clientStep]

theorem foldl_clientStep_status_mem (l : List (String × ClientSpec)) :
    ∀ acc : List (String × CheckRecord) × String,
      acc.2 = "healthy" ∨ acc.2 = "degraded" ∨ acc.2 = "unhealthy" →
      (l.foldl clientStep acc).2 = "healthy" ∨ (l.foldl clientStep acc).2 = "degraded" ∨
        (l.foldl clientStep acc).2 = "unhealthy" := by
  induction l with
  | nil => intro acc h; exact h
  | cons p t ih =>
    intro acc h
    rw [List.foldl_cons]
    exact ih _ (clientStep_status_mem acc p h)

theorem lookup_map_replace (checks : List (String × CheckRecord)) (n k : String)
    (rec : CheckRecord) (hk : (k == n) = false) :
    (checks.map (fun p => if p.1 == n then (n, rec) else p)).lookup k =
      checks.lookup k := by
  induction checks with
  | nil => rfl
  | cons p t ih =>
    rcases p with ⟨pk, pv⟩
    simp only [List.map_cons]
    by_cases hp : (pk == n) = true
    · have hpn : pk = n := eq_of_beq hp
      subst hpn
      rw [if_pos hp]
      simp only [List.lookup, hk]
      exact ih
    · rw [if_neg hp]
      cases hkp : (k == pk) <;> simp only [List.lookup, hkp]
      · exact ih

theorem lookup_append_single (checks : List (String × CheckRecord)) (n k : String)
    (rec : CheckRecord) (hk : (k == n) = false) :
    (checks ++ [(n, rec)]).lookup k = checks.lookup k := by
  induction checks with
  | nil => simp [List.lookup, hk]
  | cons p t ih =>
    rcases p with ⟨pk, pv⟩
    cases hkp : (k == pk) <;> simp only [List.cons_append, List.lookup, hkp]
    · exact ih

theorem setCheck_lookup_ne (checks : List (String × CheckRecord)) (n k : String)
    (rec : CheckRecord) (hk : (k == n) = false) :
    (setCheck checks n rec).lookup k = checks.lookup k := by
  unfold setCheck
  split
  · exact lookup_map_replace checks n k rec hk
  · exact lookup_append_single checks n k rec hk

theorem clientStep_checks_shape (acc : List (String × CheckRecord) × String)
    (nc : String × ClientSpec) :
    ∃ rec, (clientStep acc nc).1 = setCheck acc.1 nc.1 rec := by
  rcases nc with ⟨n, c⟩
  cases c with
  | nullish => exact ⟨_, rfl⟩
  | plain => exact ⟨_, rfl⟩
  | withHealth r =>
    cases r with
    | ok rec => exact ⟨rec, rfl⟩
    | error e => exact ⟨_, rfl⟩

theorem foldl_clientStep_lookup_ne (l : List (String × ClientSpec)) (k : String) :
    ∀ acc : List (String × CheckRecord) × String,
      (∀ p ∈ l, (k == p.1) = false) →
      ((l.foldl clientStep acc).1).lookup k = acc.1.lookup k := by
  induction l with
  | nil => intro acc _; rfl
  | cons p t ih =>
    intro acc hk
    rw [List.foldl_cons]
    rw [ih _ (fun q hq => hk q (List.mem_cons_of_mem p hq))]
    obtain ⟨rec, hrec⟩ := clientStep_checks_shape acc p
    rw [hrec]
    exact setCheck_lookup_ne acc.1 p.1 k rec (hk p (List.mem_cons_self p t))

theorem validateEnvironment_ok_exists (env : Env) (keys : List String)
    (opts : ValidateOptions) (h : opts.throwOnMissing = false) :
    ∃ v, validateEnvironment env keys opts = .ok v := by
  unfold validateEnvironment
  split
  · exact ⟨_, rfl⟩
  · simp only [h, Bool.false_eq_true, if_false]
    split
    · exact ⟨_, rfl⟩
    · exact ⟨_, rfl⟩

theorem validateEnvironment_invalid {env : Env} {keys : List String}
    {opts : ValidateOptions} {v : ValidationResult}
    (hok : validateEnvironment env keys opts = .ok v)
    (hns : ¬(opts.skipInProduction = true ∧ env.get "NODE_ENV" = some "production"))
    (hex : ∃ k ∈ keys, truthy (env.get k) = false) :
    v.valid = false := by
  have hshape := validateEnvironment_ok_shape hok hns
  have hm := validateEnvironment_missing hok hns
  rcases hex with ⟨k, hk, hkf⟩
  have hmem : k ∈ v.missing := by
    rw [hm]
    exact List.mem_filter.mpr ⟨hk, by simp [hkf]⟩
  rw [hshape.1]
  cases hcase : v.missing with
  | nil => rw [hcase] at hmem; cases hmem
  | cons a t => rfl

theorem foldl_from_degraded (l : List (String × ClientSpec))
    (acc : List (String × CheckRecord) × String) (h : acc.2 = "degraded") :
    (l.foldl clientStep acc).2 = "degraded" ∨ (l.foldl clientStep acc).2 = "unhealthy" := by
  have hmem := foldl_clientStep_status_mem l acc (Or.inr (Or.inl h))
  have hmono := foldl_clientStep_sev_mono l acc
  rcases hmem with h1 | h1 | h1
  · rw [h, h1] at hmono
    simp [sev] at hmono
  · exact Or.inl h1
  · exact Or.inr h1

theorem ne_unhealthy_of_hd {s : String}
    (h : s = "healthy" ∨ s = "degraded") : s ≠ "unhealthy" := by
  rcases h with h | h <;> rw [h] <;> decide

/-- Claim C5: `performCheck` calls the validator with `skipInProduction` forced to
false, so in production a missing required variable yields an environment
sub-check with status "warning" and an overall status of at least
"degraded"; a validator exception yields an "error" sub-check and overall
"unhealthy"; and with a returning validator and no throwing client the
overall status is never "unhealthy". -/
theorem c5_environment_subcheck (serviceName : String)
    (clients : List (String × ClientSpec)) (opts : HealthCheckOptions)
    (env : Env) (now : String) :
    (env.get "NODE_ENV" = some "production" →
      opts.checkEnvironment = true →
      (∀ p ∈ clients, p.1 ≠ "environment") →
      (∃ k ∈ (SERVICE_ENV_VARS.lookup serviceName).getD [],
        truthy (env.get k) = false) →
      (∃ rec, (performHealthCheck serviceName clients opts env now).checks.lookup
          "environment" = some rec ∧ rec.status = some "warning") ∧
      ((performHealthCheck serviceName clients opts env now).status = "degraded" ∨
        (performHealthCheck serviceName clients opts env now).status = "unhealthy")) ∧
    (∀ e : JsError, opts.checkEnvironment = true →
      (∀ p ∈ clients, p.1 ≠ "environment") →
      (performHealthCheckWith serviceName (.error e) clients opts env
          now).checks.lookup "environment" =
        some { status := some "error", error := some e.message } ∧
      (performHealthCheckWith serviceName (.error e) clients opts env now).status =
        "unhealthy") ∧
    (clientsNoThrow clients →
      (performHealthCheck serviceName clients opts env now).status ≠ "unhealthy") := by
  have hnamesBeq : (∀ p ∈ clients, p.1 ≠ "environment") →
      ∀ p ∈ clients, (("environment" : String) == p.1) = false := by
    intro hnames p hp
    exact beq_eq_false_iff_ne.mpr (Ne.symm (hnames p hp))
  refine ⟨?_, ?_, ?_⟩
  · intro hprod hce hnames hex
    obtain ⟨v, hv⟩ := validateEnvironment_ok_exists env
      ((SERVICE_ENV_VARS.lookup serviceName).getD [])
      { serviceName := serviceName, skipInProduction := false,
        throwOnMissing := false } rfl
    have hvalid : v.valid = false :=
      validateEnvironment_invalid hv (by simp) hex
    have key : performHealthCheck serviceName clients opts env now =
        performHealthCheckWith serviceName (.ok v) clients opts env now := by
      unfold performHealthCheck
      have hvse : validateServiceEnvironment env serviceName
          { skipInProduction := some false } = .ok v := hv
      rw [hvse]
    rw [key]
    constructor
    · refine ⟨{ status := some (if v.valid then "ok" else "warning"), missing := some v.missing, warnings := some v.warnings }, ?_, by rw [hvalid]; rfl⟩
      simp only [performHealthCheckWith, hce, if_true]
      by_cases him : opts.includeMetrics = true
      · simp only [him, if_true]
        rw [setCheck_lookup_ne _ _ _ _ (by decide)]
        by_cases hcc : opts.checkClients = true
        · simp only [hcc, if_true]
          rw [foldl_clientStep_lookup_ne clients _ _ (hnamesBeq hnames)]
          simp [setCheck, List.lookup]
        · simp only [hcc, Bool.false_eq_true, if_false]
          simp [setCheck, List.lookup]
      · simp only [him, Bool.false_eq_true, if_false]
        by_cases hcc : opts.checkClients = true
        · simp only [hcc, if_true]
          rw [foldl_clientStep_lookup_ne clients _ _ (hnamesBeq hnames)]
          simp [setCheck, List.lookup]
        · simp only [hcc, Bool.false_eq_true, if_false]
          simp [setCheck, List.lookup]
    · simp only [performHealthCheckWith, hce, if_true, hvalid, Bool.false_eq_true,
        if_false]
      by_cases hcc : opts.checkClients = true
      · simp only [hcc, if_true]
        exact foldl_from_degraded clients _ rfl
      · simp only [hcc, Bool.false_eq_true, if_false]
        trivial
  · intro e hce hnames
    constructor
    · simp only [performHealthCheckWith, hce, if_true]
      by_cases him : opts.includeMetrics = true
      · simp only [him, if_true]
        rw [setCheck_lookup_ne _ _ _ _ (by decide)]
        by_cases hcc : opts.checkClients = true
        · simp only [hcc, if_true]
          rw [foldl_clientStep_lookup_ne clients _ _ (hnamesBeq hnames)]
          simp [setCheck, List.lookup]
        · simp only [hcc, Bool.false_eq_true, if_false]
          simp [setCheck, List.lookup]
      · simp only [him, Bool.false_eq_true, if_false]
        by_cases hcc : opts.checkClients = true
        · simp only [hcc, if_true]
          rw [foldl_clientStep_lookup_ne clients _ _ (hnamesBeq hnames)]
          simp [setCheck, List.lookup]
        · simp only [hcc, Bool.false_eq_true, if_false]
          simp [setCheck, List.lookup]
    · simp only [performHealthCheckWith, hce, if_true]
      by_cases hcc : opts.checkClients = true
      · simp only [hcc, if_true]
        exact foldl_clientStep_unhealthy clients _ rfl
      · simp only [hcc, Bool.false_eq_true, if_false]
  · intro hnt
    obtain ⟨v, hv⟩ := validateEnvironment_ok_exists env
      ((SERVICE_ENV_VARS.lookup serviceName).getD [])
      { serviceName := serviceName, skipInProduction := false,
        throwOnMissing := false } rfl
    have key : performHealthCheck serviceName clients opts env now =
        performHealthCheckWith serviceName (.ok v) clients opts env now := by
      unfold performHealthCheck
      have hvse : validateServiceEnvironment env serviceName
          { skipInProduction := some false } = .ok v := hv
      rw [hvse]
    rw [key]
    by_cases hce : opts.checkEnvironment = true
    · by_cases hcc : opts.checkClients = true
      · simp only [performHealthCheckWith, hce, hcc, if_true]
        apply ne_unhealthy_of_hd
        apply foldl_clientStep_nonUnhealthy clients _ hnt
        by_cases hval : v.valid = true
        · simp [hval]
        · simp only [Bool.not_eq_true] at hval
          simp [hval]
      · simp only [performHealthCheckWith, hce, hcc, if_true, Bool.false_eq_true,
          if_false]
        apply ne_unhealthy_of_hd
        by_cases hval : v.valid = true
        · simp [hval]
        · simp only [Bool.not_eq_true] at hval
          simp [hval]
    · simp only [Bool.not_eq_true] at hce
      by_cases hcc : opts.checkClients = true
      · simp only [performHealthCheckWith, hce, hcc, if_true, Bool.false_eq_true,
          if_false]
        apply ne_unhealthy_of_hd
        exact foldl_clientStep_nonUnhealthy clients _ hnt (Or.inl rfl)
      · simp only [performHealthCheckWith, hce, hcc, Bool.false_eq_true, if_false]
        decide

/-- Witness for C5 at a concrete input: production mode, `auth-service`,
no variables set — the environment sub-check warns and the overall status
is degraded-or-worse. -/
theorem c5_environment_subcheck_witness :
    (∃ rec, (performHealthCheck "auth-service" [] {}
        ⟨[("NODE_ENV", "production")]⟩ "t").checks.lookup "environment" =
          some rec ∧ rec.status = some "warning") ∧
    ((performHealthCheck "auth-service" [] {}
        ⟨[("NODE_ENV", "production")]⟩ "t").status = "degraded" ∨
      (performHealthCheck "auth-service" [] {}
        ⟨[("NODE_ENV", "production")]⟩ "t").status = "unhealthy") :=
  (c5_environment_subcheck "auth-service" [] {}
      ⟨[("NODE_ENV", "production")]⟩ "t").1 (by decide) rfl
    (fun p hp => absurd hp (List.not_mem_nil p))
    ⟨"DYNAMODB_TABLE_NAME", by decide, rfl⟩

/-- Counterexample to C6: in test mode with a registered mock, the handle
returned after `resetClients` is reference-identical to the handle obtained
before the reset (the registry hands back the same registered substitute;
nothing new is constructed). The repository's own test suite relies on
exactly this behavior. -/
theorem c6_counterexample_reset_returns_same_mock :
    (createCognitoClient ⟨[("NODE_ENV", "test")]⟩ ⟨some (.ext 7), none⟩
        (resetClients (createCognitoClient ⟨[("NODE_ENV", "test")]⟩
          ⟨some (.ext 7), none⟩ {}).2)).1 =
      (createCognitoClient ⟨[("NODE_ENV", "test")]⟩ ⟨some (.ext 7), none⟩ {}).1 ∧
    (createCognitoClient ⟨[("NODE_ENV", "test")]⟩ ⟨some (.ext 7), none⟩ {}).1 =
      Handle.ext 7 := by
  exact ⟨by decide, by decide⟩

/-- Claim C6, amended: two `getClient` calls with no reset between return
reference-identical handles (for both kinds); and after `resetAll`, when the
test-mode substitute path does not apply, the next call constructs a fresh
handle that is reference-distinct from every handle in existence before the
reset. (When the substitute path applies, the registered mock — possibly a
handle already seen — is returned instead.) -/
theorem c6_memoization_and_reset (env : Env) (g : Globals) (s : ClientsState) :
    ((createCognitoClient env g ((createCognitoClient env g s).2)).1 =
      (createCognitoClient env g s).1) ∧
    ((createDynamoDbDocumentClient env g
        ((createDynamoDbDocumentClient env g s).2)).1 =
      (createDynamoDbDocumentClient env g s).1) ∧
    (¬(env.get "NODE_ENV" = some "test" ∧ g.mockCognitoClient.isSome = true) →
      (createCognitoClient env g (resetClients s)).1 =
        Handle.base s.nextId (awsClientConfig env) ∧
      ∀ h : Handle, h.existsBefore s →
        (createCognitoClient env g (resetClients s)).1 ≠ h) ∧
    (¬(env.get "NODE_ENV" = some "test" ∧
        g.mockDynamoDbDocumentClient.isSome = true) →
      ∀ h : Handle, h.existsBefore s →
        (createDynamoDbDocumentClient env g (resetClients s)).1 ≠ h) := by
  refine ⟨?_, ?_, ?_, ?_⟩
  · cases hs : s.cognitoClient with
    | some c => simp [createCognitoClient, hs]
    | none =>
      by_cases hb : ((env.get "NODE_ENV" == some "test") &&
          g.mockCognitoClient.isSome) = true
      · simp [createCognitoClient, hs, hb]
      · simp [createCognitoClient, hs, hb]
  · cases hs : s.dynamoDbDocumentClient with
    | some c => simp [createDynamoDbDocumentClient, hs]
    | none =>
      by_cases hb : ((env.get "NODE_ENV" == some "test") &&
          g.mockDynamoDbDocumentClient.isSome) = true
      · simp [createDynamoDbDocumentClient, hs, hb]
      · cases hd : s.dynamoDbClient with
        | some b => simp [createDynamoDbDocumentClient, hs, hb, hd]
        | none => simp [createDynamoDbDocumentClient, hs, hb, hd]
  · intro hnm
    have hb : ((env.get "NODE_ENV" == some "test") &&
        g.mockCognitoClient.isSome) = false := by
      cases hn : (env.get "NODE_ENV" == some "test")
      · rfl
      · cases hm : g.mockCognitoClient.isSome
        · rfl
        · exact absurd ⟨eq_of_beq hn, hm⟩ hnm
    have heq : (createCognitoClient env g (resetClients s)).1 =
        Handle.base s.nextId (awsClientConfig env) := by
      simp [createCognitoClient, resetClients, hb]
    refine ⟨heq, ?_⟩
    intro h hbef hcontra
    rw [heq] at hcontra
    cases h with
    | base i cfg =>
      have : s.nextId = i := by injection hcontra
      simp only [Handle.existsBefore] at hbef
      omega
    | doc i w o => exact Handle.noConfusion hcontra
    | ext i => exact Handle.noConfusion hcontra
  · intro hnm
    have hb : ((env.get "NODE_ENV" == some "test") &&
        g.mockDynamoDbDocumentClient.isSome) = false := by
      cases hn : (env.get "NODE_ENV" == some "test")
      · rfl
      · cases hm : g.mockDynamoDbDocumentClient.isSome
        · rfl
        · exact absurd ⟨eq_of_beq hn, hm⟩ hnm
    have heq : (createDynamoDbDocumentClient env g (resetClients s)).1 =
        Handle.doc (s.nextId + 1) (Handle.base s.nextId (awsClientConfig env)) {} := by
      simp [createDynamoDbDocumentClient, resetClients, hb]
    intro h hbef hcontra
    rw [heq] at hcontra
    cases h with
    | base i cfg => exact Handle.noConfusion hcontra
    | doc i w o =>
      have : s.nextId + 1 = i := by injection hcontra
      simp only [Handle.existsBefore] at hbef
      omega
    | ext i => exact Handle.noConfusion hcontra

/-- Witness for C6 at a concrete input: outside test mode, the first
post-reset call constructs a handle distinct from a pre-existing external
handle. -/
theorem c6_memoization_and_reset_witness :
    (createCognitoClient ⟨[]⟩ ⟨none, none⟩ (resetClients {})).1 ≠ Handle.ext 3 :=
  ((c6_memoization_and_reset ⟨[]⟩ ⟨none, none⟩ {}).2.2.1 (by decide)).2
    (Handle.ext 3) trivial

/-- Counterexample to C7: `isTestMode()` is true (the test-worker-identifier
variable is set) and a substitute is registered, yet `getClient` constructs
and returns a real client, because the code gates mock injection on the
runtime mode equalling "test", not on `isTestEnvironment()`. -/
theorem c7_counterexample_worker_id_ignored :
    isTestEnvironment ⟨[("JEST_WORKER_ID", "1")]⟩ = true ∧
    (createCognitoClient ⟨[("JEST_WORKER_ID", "1")]⟩ ⟨some (.ext 3), none⟩ {}).1 ≠
      Handle.ext 3 ∧
    (createCognitoClient ⟨[("JEST_WORKER_ID", "1")]⟩ ⟨some (.ext 3), none⟩ {}).1 =
      Handle.base 0 (awsClientConfig ⟨[("JEST_WORKER_ID", "1")]⟩) := by
  exact ⟨by decide, by decide, by decide⟩

/-- Claim C7, amended: when the runtime mode equals "test" (precisely
`NODE_ENV === "test"`, not the broader `isTestEnvironment()` predicate), a
substitute handle is registered, and no handle is currently memoized for
that kind, `getClient` returns the registered substitute instead of
constructing a real client. -/
theorem c7_substitute_injection (env : Env) (g : Globals) (s : ClientsState)
    (m md : Handle)
    (hc : s.cognitoClient = none) (hd : s.dynamoDbDocumentClient = none)
    (henv : env.get "NODE_ENV" = some "test")
    (hm : g.mockCognitoClient = some m)
    (hmd : g.mockDynamoDbDocumentClient = some md) :
    (createCognitoClient env g s).1 = m ∧
    (createDynamoDbDocumentClient env g s).1 = md := by
  constructor
  · simp [createCognitoClient, hc, henv, hm]
  · simp [createDynamoDbDocumentClient, hd, henv, hmd]

/-- Witness for C7 at a concrete input. -/
theorem c7_substitute_injection_witness :
    (createCognitoClient ⟨[("NODE_ENV", "test")]⟩
        ⟨some (.ext 1), some (.ext 2)⟩ {}).1 = Handle.ext 1 ∧
    (createDynamoDbDocumentClient ⟨[("NODE_ENV", "test")]⟩
        ⟨some (.ext 1), some (.ext 2)⟩ {}).1 = Handle.ext 2 :=
  c7_substitute_injection ⟨[("NODE_ENV", "test")]⟩
    ⟨some (.ext 1), some (.ext 2)⟩ {} (Handle.ext 1) (Handle.ext 2)
    rfl rfl (by decide) rfl rfl
